import Mathlib

/-!
Shallow embedding of the spreadsheet grid core (GridState and
ImportExportService) from the repository's JavaScript sources, together
with theorems settling the specification claims.

The embedded version is the one in `src/unnamed/part_001`, the complete
variant that carries the optional `targetRowCount` in `updateSchema`, the
`silent` flag and `_ensureCapacity` in `updateCell`, `isActiveRow`,
`addRow`, and the `ImportExportService` (paste / file upload / CSV
export).  Cell values are strings; record identifiers are strings wrapped
in `Option` (JavaScript `null` becomes `none`).  The external record-store
connector fabricates identifiers, so functions that call `createRecord`
take an identifier supply `mkId : Nat -> String` giving the id returned by
the k-th create call.  Mutation methods return the new state together with
the event passed to `notify`.
-/

/-- A grid cell: `{ value: '', recordId: null }` in the source. -/
structure Cell where
  value : String
  recordId : Option String
deriving Repr, DecidableEq

/-- The empty cell `{ value: '', recordId: null }`. -/
def emptyCell : Cell := ⟨"", none⟩

/-- The typed events passed to `notify` by GridState methods. -/
inductive Event where
  | paginationChange
  | searchChange
  | schemaChange
  | dataChange
  | dimensionChange
  | cellUpdate (row col : Nat) (value : String)
deriving Repr, DecidableEq

/-- `CONFIG.INITIAL_COLS` in `src/unnamed/part_001`. -/
def CONFIG_INITIAL_COLS : Nat := 10
/-- `CONFIG.INITIAL_ROWS` in `src/unnamed/part_001`. -/
def CONFIG_INITIAL_ROWS : Nat := 10
/-- `CONFIG.DEFAULT_COL_WIDTH` in `src/unnamed/part_001`. -/
def CONFIG_DEFAULT_COL_WIDTH : Nat := 130
/-- `CONFIG.DEFAULT_PAGE_SIZE` in `src/unnamed/part_001`. -/
def CONFIG_DEFAULT_PAGE_SIZE : Nat := 25
/-- `CONFIG.COL_NAMES` in `src/unnamed/part_001` (the empty list). -/
def CONFIG_COL_NAMES : List String := []

/-- A row of `n` empty cells, as built by
`Array.from({length: n}, () => ({value: '', recordId: null}))`. -/
def mkEmptyRow (n : Nat) : List Cell := List.replicate n emptyCell

/-- The mutable fields of the `GridState` class. -/
structure GridState where
  colsCount : Nat
  colNames : List String
  colWidths : List Nat
  currentPage : Nat
  pageSize : Nat
  searchQuery : String
  data : List (List Cell)
deriving Repr, DecidableEq

/-- The `GridState` constructor. -/
def GridState.init : GridState where
  colsCount := CONFIG_INITIAL_COLS
  colNames := CONFIG_COL_NAMES
  colWidths := List.replicate CONFIG_INITIAL_COLS CONFIG_DEFAULT_COL_WIDTH
  currentPage := 1
  pageSize := CONFIG_DEFAULT_PAGE_SIZE
  searchQuery := ""
  data := List.replicate CONFIG_INITIAL_ROWS (mkEmptyRow CONFIG_INITIAL_COLS)

/-- Read the cell at `(row, col)`; out-of-range reads give the empty cell
(the JavaScript arrays simply have no entry there). -/
def GridState.cellAt (s : GridState) (row col : Nat) : Cell :=
  (s.data.getD row []).getD col emptyCell

/-- `setPage(page)`. -/
def GridState.setPage (s : GridState) (page : Nat) : GridState × Event :=
  ({ s with currentPage := page }, Event.paginationChange)

/-- `setPageSize(size)`. -/
def GridState.setPageSize (s : GridState) (size : Nat) : GridState × Event :=
  ({ s with pageSize := size, currentPage := 1 }, Event.paginationChange)

/-- `setSearchQuery(query)`. -/
def GridState.setSearchQuery (s : GridState) (query : String) : GridState × Event :=
  ({ s with searchQuery := query, currentPage := 1 }, Event.searchChange)

/-- JavaScript `hay.includes(needle)`: substring containment. -/
def strIncludes (hay needle : String) : Bool :=
  decide (List.IsInfix needle.toList hay.toList)

/-- An element of the list returned by `getFilteredData`:
`{ row, index }` with the row's original position. -/
structure IndexedRow where
  row : List Cell
  index : Nat
deriving Repr, DecidableEq

/-- `getFilteredData()`: all rows tagged with their original index; when a
search query is set, only the rows with some cell value containing the
query case-insensitively. -/
def GridState.getFilteredData (s : GridState) : List IndexedRow :=
  let allRows := s.data.enum.map (fun p => IndexedRow.mk p.2 p.1)
  if s.searchQuery = "" then allRows
  else
    let lowerQuery := s.searchQuery.toLower
    allRows.filter (fun item =>
      item.row.any (fun cell => strIncludes cell.value.toLower lowerQuery))

/-- `getPaginatedData()`: the slice
`[(currentPage-1)*pageSize, currentPage*pageSize)` of the filtered rows. -/
def GridState.getPaginatedData (s : GridState) : List IndexedRow :=
  let filtered := s.getFilteredData
  let start := (s.currentPage - 1) * s.pageSize
  (filtered.drop start).take s.pageSize

/-- `getTotalPages()`: `Math.ceil(filtered.length / pageSize) || 1`.
`(n + p - 1) / p` is the ceiling of `n / p` for `p >= 1`; the branch on
zero embeds the `|| 1` fallback. -/
def GridState.getTotalPages (s : GridState) : Nat :=
  let n := s.getFilteredData.length
  let t := (n + s.pageSize - 1) / s.pageSize
  if t = 0 then 1 else t

/-- `updateSchema(newColNames, targetRowCount = null)`: replaces the
schema and rebuilds the whole grid as empty cells. -/
def GridState.updateSchema (s : GridState) (newColNames : List String)
    (targetRowCount : Option Nat) : GridState × Event :=
  let colsCount := newColNames.length
  let rowCount := match targetRowCount with
    | some n => n
    | none => s.data.length
  ({ s with
      colNames := newColNames
      colsCount := colsCount
      data := List.replicate rowCount (mkEmptyRow colsCount)
      colWidths := List.replicate colsCount CONFIG_DEFAULT_COL_WIDTH },
   Event.schemaChange)

/-- `while (rowData.length < n) rowData.push(emptyCell)`: pad a row on the
right with empty cells up to length `n` (no-op when already long enough). -/
def padRow (row : List Cell) (n : Nat) : List Cell :=
  row ++ List.replicate (n - row.length) emptyCell

/-- `_ensureCapacity(row, col)`: append empty rows while
`data.length <= row`; if `col >= colsCount`, pad every row and the width
array to `col + 1` entries and raise `colsCount`.  Returns the updated
state and the `changed` flag. -/
def GridState.ensureCapacity (s : GridState) (row col : Nat) : GridState × Bool :=
  let rowsChanged := s.data.length ≤ row
  let data1 :=
    if s.data.length ≤ row then
      s.data ++ List.replicate (row + 1 - s.data.length) (mkEmptyRow s.colsCount)
    else s.data
  if col < s.colsCount then
    ({ s with data := data1 }, rowsChanged)
  else
    ({ s with
        data := data1.map (fun r => padRow r (col + 1))
        colWidths := s.colWidths ++
          List.replicate (col + 1 - s.colWidths.length) CONFIG_DEFAULT_COL_WIDTH
        colsCount := col + 1 },
     true)

/-- `addRow()`: push an empty row; the returned number is the new row's
index `data.length - 1`. -/
def GridState.addRow (s : GridState) : GridState × Event × Nat :=
  let data := s.data ++ [mkEmptyRow s.colsCount]
  ({ s with data := data }, Event.dataChange, data.length - 1)

/-- `row.some(cell => (cell.value !== null && cell.value !== '') || cell.recordId !== null)`. -/
def rowActive (row : List Cell) : Bool :=
  row.any (fun cell => cell.value ≠ "" || cell.recordId ≠ none)

/-- `isActiveRow(rowIndex)` (callers guard the index to be in range). -/
def GridState.isActiveRow (s : GridState) (rowIndex : Nat) : Bool :=
  rowActive (s.data.getD rowIndex [])

/-- Replace the cell at `(row, col)` in a row-major grid; out-of-range
indices leave the grid unchanged (callers establish the bounds). -/
def setCell (data : List (List Cell)) (row col : Nat) (c : Cell) :
    List (List Cell) :=
  data.set row ((data.getD row []).set col c)

/-- `updateCell(row, col, value, recordId = null, silent = false)`:
grow capacity, record the row's prior active status, overwrite the cell —
`recordId || previous` keeps the previous identifier when the argument is
`null` or the (falsy) empty string — and, unless silent, notify
`DATA_CHANGE` when the active status flipped or capacity changed, else
`CELL_UPDATE`. -/
def GridState.updateCell (s : GridState) (row col : Nat) (value : String)
    (recordId : Option String) (silent : Bool) : GridState × Option Event :=
  let ec := s.ensureCapacity row col
  let s1 := ec.1
  let capacityChanged := ec.2
  let wasActive := if row < s1.data.length then s1.isActiveRow row else false
  let prior := (s1.data.getD row []).getD col emptyCell
  let newRecordId := match recordId with
    | some id => if id = "" then prior.recordId else some id
    | none => prior.recordId
  let s2 := { s1 with data := setCell s1.data row col ⟨value, newRecordId⟩ }
  if silent then (s2, none)
  else
    let isActive := s2.isActiveRow row
    if wasActive ≠ isActive ∨ capacityChanged then (s2, some Event.dataChange)
    else (s2, some (Event.cellUpdate row col value))

/-- `clearAll()`: reset schema, widths, data, page and query to the
initial configuration (the page size is kept). -/
def GridState.clearAll (s : GridState) : GridState × Event :=
  ({ s with
      colsCount := CONFIG_INITIAL_COLS
      colNames := CONFIG_COL_NAMES
      colWidths := List.replicate CONFIG_INITIAL_COLS CONFIG_DEFAULT_COL_WIDTH
      data := List.replicate CONFIG_INITIAL_ROWS (mkEmptyRow CONFIG_INITIAL_COLS)
      currentPage := 1
      searchQuery := "" },
   Event.schemaChange)

/-- The `while (i >= 0)` loop of `getColName`, written with a fuel
argument so that it is structurally recursive: each iteration replaces
`i` by `i / 26 - 1`, which is strictly smaller, so fuel `i + 1` always
suffices. -/
def colLetterNameGo : Nat → Nat → String
  | 0, _ => ""
  | fuel + 1, i =>
      let c := Char.ofNat (i % 26 + 65)
      if i < 26 then String.singleton c
      else colLetterNameGo fuel (i / 26 - 1) ++ String.singleton c

/-- The base-26 letter sequence A, B, ..., Z, AA, AB, ... computed by the
`while (i >= 0)` loop in `getColName`. -/
def colLetterName (i : Nat) : String :=
  colLetterNameGo (i + 1) i

/-- `getColName(index)`: the explicit name when present and non-empty
(JavaScript truthiness), else the letter fallback. -/
def GridState.getColName (s : GridState) (index : Nat) : String :=
  let n := s.colNames.getD index ""
  if n = "" then colLetterName index else n

/-- Every row holds exactly `colsCount` cells: the grid rectangularity
invariant stated by the data model. -/
def GridState.rect (s : GridState) : Prop :=
  ∀ row ∈ s.data, row.length = s.colsCount

instance (s : GridState) : Decidable s.rect := by
  unfold GridState.rect; infer_instance

/-! ## ImportExportService -/

/-- The validation errors thrown by `handlePaste`, in source order:
`'No data found in clipboard.'`, `'The pasted content is empty.'`,
`'The pasted data format is not supported. Please paste a table from
Excel.'`, `'Headers are missing or invalid.'`. -/
inductive PasteError where
  | emptyClipboard
  | emptyContent
  | formatNotSupported
  | headersMissing
deriving Repr, DecidableEq

/-- JavaScript `String.prototype.trim`: strip leading and trailing
whitespace (for the ASCII whitespace the inputs here contain). -/
def strTrim (s : String) : String :=
  String.mk (((s.data.dropWhile Char.isWhitespace).reverse.dropWhile
    Char.isWhitespace).reverse)

/-- Split a character list at every occurrence of the separator, the way
JavaScript `split` does (an empty input gives one empty field, a trailing
separator a trailing empty field). -/
def splitOnChar (c : Char) : List Char → List (List Char)
  | [] => [[]]
  | ch :: rest =>
      if ch = c then [] :: splitOnChar c rest
      else
        match splitOnChar c rest with
        | [] => [[ch]]
        | l :: ls => (ch :: l) :: ls

/-- The field splitting of `text.split(/\r?\n/)`: a separator is either
the two characters `\r\n` or a bare `\n`; a `\r` not followed by `\n` is
ordinary content. -/
def splitLinesChars : List Char → List (List Char)
  | [] => [[]]
  | '\r' :: '\n' :: rest => [] :: splitLinesChars rest
  | '\n' :: rest => [] :: splitLinesChars rest
  | ch :: rest =>
      match splitLinesChars rest with
      | [] => [[ch]]
      | l :: ls => (ch :: l) :: ls

/-- `text.split(/\r?\n/)`. -/
def splitLines (text : String) : List String :=
  (splitLinesChars text.data).map (fun l => String.mk l)

/-- `line.split('\t')`. -/
def splitTabs (line : String) : List String :=
  (splitOnChar '\t' line.data).map (fun l => String.mk l)

/-- The loop `for (let c = 0; c < colsCount; c++)
data[row][c].recordId = id` run after each `createRecord`. -/
def setRowRecordIds (st : GridState) (row : Nat) (id : String) : GridState :=
  (List.range st.colsCount).foldl
    (fun s c =>
      let rowList := s.data.getD row []
      let cell := rowList.getD c emptyCell
      { s with data := s.data.set row (rowList.set c { cell with recordId := some id }) })
    st

/-- The inner paste loop
`for (let cIdx = 1; cIdx < cells.length; cIdx++)` with its
`if (col >= colsCount) break` guard, iterating structurally over the
cells after the first (`value` is `cells[cIdx]`); writes are silent and
the payload entries `rowData[col_<col>] = value` are accumulated. -/
def pasteCells (row : Nat) : Nat → List String → GridState →
    List (Nat × String) → GridState × List (Nat × String)
  | _, [], st, rowData => (st, rowData)
  | cIdx, value :: rest, st, rowData =>
      let col := cIdx - 1
      if st.colsCount ≤ col then (st, rowData)
      else
        pasteCells row (cIdx + 1) rest
          (st.updateCell row col value none true).1
          (rowData ++ [(col, value)])

/-- The outer paste loop `for (let rIdx = 1; rIdx < lines.length; rIdx++)`,
iterating structurally over the lines after the header line: write the
line's cells, call `createRecord(rowData)` (its id is `mkId` at the
number of creates so far), propagate the id to the whole row.  Returns
the final state and the list of create payloads. -/
def pasteRows (mkId : Nat → String) :
    List String → Nat → GridState → List (List (Nat × String)) →
    GridState × List (List (Nat × String))
  | [], _, st, creates => (st, creates)
  | line :: rest, rIdx, st, creates =>
      let cells := splitTabs line
      let row := rIdx - 1
      let pc := pasteCells row 1 (cells.drop 1) st []
      let id := mkId creates.length
      let st2 := setRowRecordIds pc.1 row id
      pasteRows mkId rest (rIdx + 1) st2 (creates ++ [pc.2])

instance {ε α : Type} [DecidableEq ε] [DecidableEq α] :
    DecidableEq (Except ε α) := fun a b =>
  match a, b with
  | Except.error e, Except.error f =>
      if h : e = f then isTrue (by rw [h])
      else isFalse (fun hh => by cases hh; exact h rfl)
  | Except.error _, Except.ok _ => isFalse (fun hh => by cases hh)
  | Except.ok _, Except.error _ => isFalse (fun hh => by cases hh)
  | Except.ok x, Except.ok y =>
      if h : x = y then isTrue (by rw [h])
      else isFalse (fun hh => by cases hh; exact h rfl)

/-- The outcome of a paste: the grid state after the call (unchanged when
an error was thrown, every throw happening before the first mutation),
the thrown error if any, the events notified in order, and the payload of
each `createRecord` call. -/
structure PasteResult where
  state : GridState
  outcome : Except PasteError Unit
  events : List Event
  creates : List (List (Nat × String))
deriving Repr, DecidableEq

/-- `ImportExportService.handlePaste(pastedText)`. -/
def handlePaste (s : GridState) (pastedText : String) (mkId : Nat → String) :
    PasteResult :=
  if pastedText = "" ∨ (strTrim pastedText).length = 0 then
    ⟨s, Except.error PasteError.emptyClipboard, [], []⟩
  else
    let lines := (splitLines pastedText).filter
      (fun line => 0 < (strTrim line).length)
    if lines.length = 0 then ⟨s, Except.error PasteError.emptyContent, [], []⟩
    else
      let firstLineCells := splitTabs (lines.getD 0 "")
      if firstLineCells.length < 2 ∧ lines.length < 2 then
        ⟨s, Except.error PasteError.formatNotSupported, [], []⟩
      else
        let headers := firstLineCells.drop 1
        if headers.length = 0 ∨ headers.all (fun h => strTrim h = "") then
          ⟨s, Except.error PasteError.headersMissing, [], []⟩
        else
          let su := s.updateSchema headers (some (lines.length - 1))
          let pr := pasteRows mkId (lines.drop 1) 1 su.1 []
          ⟨pr.1, Except.ok (), [su.2, Event.dataChange], pr.2⟩

/-- The single error `handleFileUpload` throws itself: `'File is empty'`. -/
inductive UploadError where
  | fileEmpty
deriving Repr, DecidableEq

/-- The inner upload loop `for (let j = 1; j < cells.length; j++)` with
its `if (colIdx < colsCount)` guard (a skip, not a break). -/
def uploadCells (st : GridState) (row : Nat) (cells : List String)
    (j : Nat) : GridState :=
  if j < cells.length then
    let colIdx := j - 1
    let st1 :=
      if colIdx < st.colsCount then
        (st.updateCell row colIdx (cells.getD j "") none true).1
      else st
    uploadCells st1 row cells (j + 1)
  else st
termination_by cells.length - j

/-- The outer upload loop `for (let i = 1; i < jsonData.length; i++)`;
`createRecord` is awaited but its id is not written back to the grid. -/
def uploadRows (st : GridState) (jsonData : List (List String)) (i : Nat) :
    GridState :=
  if i < jsonData.length then
    uploadRows (uploadCells st (i - 1) (jsonData.getD i []) 1) jsonData (i + 1)
  else st
termination_by jsonData.length - i

/-- The outcome of a file upload: final state, thrown error or the
resolved row count, and the events notified. -/
structure UploadResult where
  state : GridState
  outcome : Except UploadError Nat
  events : List Event
deriving Repr, DecidableEq

/-- `ImportExportService.handleFileUpload(file)` from the point where the
external XLSX reader has produced `jsonData` (the file's first sheet as a
list of rows of cell strings); the reader itself is outside the
repository. -/
def handleFileUploadRows (s : GridState) (jsonData : List (List String)) :
    UploadResult :=
  if jsonData.length = 0 then ⟨s, Except.error UploadError.fileEmpty, []⟩
  else
    let headers := (jsonData.getD 0 []).drop 1
    let su := s.updateSchema headers (some (jsonData.length - 1))
    let s2 := uploadRows su.1 jsonData 1
    ⟨s2, Except.ok (jsonData.length - 1), [su.2, Event.dataChange]⟩

/-- `ImportExportService.downloadCSV()` up to CSV serialization (done by
the external XLSX library): the array-of-arrays pushed into the
worksheet — a header row `['Row No', name_0, ...]` followed by one row
per filtered record, prefixed with its 1-based original index. -/
def downloadCSVRows (s : GridState) : List (List String) :=
  let headerRow := "Row No" :: (List.range s.colsCount).map s.getColName
  let activeRows := s.getFilteredData
  headerRow ::
    activeRows.map (fun item =>
      toString (item.index + 1) :: item.row.map (fun cell => cell.value))

/-! ## Proof-side ghost definitions and concrete example states -/

/-- Ghost form of the state produced by `updateCell` (shared by the
silent and non-silent paths); syntactically mirrors the `s2` built inside
`GridState.updateCell`. -/
def updatedState (s : GridState) (r c : Nat) (v : String)
    (recordId : Option String) : GridState :=
  let ec := s.ensureCapacity r c
  let s1 := ec.1
  let prior := (s1.data.getD r []).getD c emptyCell
  let newRecordId := match recordId with
    | some id => if id = "" then prior.recordId else some id
    | none => prior.recordId
  { s1 with data := setCell s1.data r c ⟨v, newRecordId⟩ }

/-- Ghost row-level form of the `uploadCells` loop: the action of the
`j`-indexed loop on the single row it writes. -/
def writeCellsRow (rowList : List Cell) (colsCount : Nat)
    (cells : List String) (j : Nat) : List Cell :=
  if j < cells.length then
    let colIdx := j - 1
    let rl :=
      if colIdx < colsCount then
        rowList.set colIdx
          ⟨cells.getD j "", (rowList.getD colIdx emptyCell).recordId⟩
      else rowList
    writeCellsRow rl colsCount cells (j + 1)
  else rowList
termination_by cells.length - j

/-- An id supply for the examples: the k-th create call returns `r<k>`. -/
def sampleId : Nat → String := fun n => "r" ++ toString n

/-- Page size 1 (a legitimate `setPageSize` call on the fresh state). -/
def gridPageSizeOne : GridState := (GridState.init.setPageSize 1).1

/-- Page 2 of the ten single-row pages of `gridPageSizeOne` (a page the
pagination buttons can legitimately reach). -/
def gridOnPage2 : GridState := (gridPageSizeOne.setPage 2).1

/-- `gridOnPage2` after `updateSchema(["A"], 1)` shrinks the grid to a
single row: the total page count drops to 1 while `currentPage` stays 2. -/
def gridShrunk : GridState := (gridOnPage2.updateSchema ["A"] (some 1)).1

/-- A 3-column grid of empty cells, the starting point of the paste
scenario (`colsCount = 3`). -/
def gridThreeCols : GridState where
  colsCount := 3
  colNames := []
  colWidths := [130, 130, 130]
  currentPage := 1
  pageSize := 25
  searchQuery := ""
  data := List.replicate 3 (mkEmptyRow 3)

/-- A one-column grid holding the single value `x`, used to exhibit the
CSV export layout. -/
def gridOneByOne : GridState where
  colsCount := 1
  colNames := []
  colWidths := [130]
  currentPage := 1
  pageSize := 25
  searchQuery := ""
  data := [[⟨"x", none⟩]]

/-- A 2x2 grid with mixed values and record ids, used as the concrete
round-trip example. -/
def gridTwoByTwo : GridState where
  colsCount := 2
  colNames := ["N1", "N2"]
  colWidths := [130, 130]
  currentPage := 1
  pageSize := 25
  searchQuery := ""
  data := [[⟨"a", some "i"⟩, ⟨"b", none⟩], [⟨"", none⟩, ⟨"d", some "j"⟩]]

/-- A one-cell grid whose cell already carries the record id `abc`. -/
def gridWithRecordId : GridState where
  colsCount := 1
  colNames := []
  colWidths := [130]
  currentPage := 1
  pageSize := 25
  searchQuery := ""
  data := [[⟨"old", some "abc"⟩]]

/-! ## List access helper lemmas -/

theorem getD_set_self {α : Type} (l : List α) (i : Nat) (a d : α)
    (h : i < l.length) : (l.set i a).getD i d = a := by
  rw [List.getD_eq_getElem _ _ (by simpa using h)]
  exact List.getElem_set_self _

theorem getD_set_ne {α : Type} (l : List α) (i j : Nat) (a d : α)
    (h : i ≠ j) : (l.set i a).getD j d = l.getD j d := by
  by_cases hj : j < l.length
  · rw [List.getD_eq_getElem _ _ (by simpa using hj),
      List.getD_eq_getElem _ _ hj]
    exact List.getElem_set_ne h _
  · rw [List.getD_eq_default _ _ (by simpa using Nat.le_of_not_lt hj),
      List.getD_eq_default _ _ (Nat.le_of_not_lt hj)]

theorem getD_replicate {α : Type} (n i : Nat) (a d : α) (h : i < n) :
    (List.replicate n a).getD i d = a := by
  rw [List.getD_eq_getElem _ _ (by simpa using h)]
  exact List.getElem_replicate _ _

theorem getD_replicate_self {α : Type} (n i : Nat) (a : α) :
    (List.replicate n a).getD i a = a := by
  by_cases h : i < n
  · exact getD_replicate n i a a h
  · exact List.getD_eq_default _ _ (by simpa using Nat.le_of_not_lt h)

theorem getD_map_in {α β : Type} (f : α → β) (l : List α) (i : Nat)
    (d : β) (d' : α) (h : i < l.length) :
    (l.map f).getD i d = f (l.getD i d') := by
  rw [List.getD_eq_getElem _ _ (by simpa using h),
    List.getD_eq_getElem _ _ h, List.getElem_map]

/-! ## Facts about rows, padding and capacity growth -/

theorem rowActive_append_replicate (row : List Cell) (k : Nat) :
    rowActive (row ++ List.replicate k emptyCell) = rowActive row := by
  unfold rowActive
  rw [List.any_append]
  have hrep : (List.replicate k emptyCell).any
      (fun cell => cell.value ≠ "" || cell.recordId ≠ none) = false := by
    induction k with
    | zero => rfl
    | succ n ih => rw [List.replicate_succ, List.any_cons, ih]; decide
  rw [hrep, Bool.or_false]

theorem rowActive_padRow (row : List Cell) (n : Nat) :
    rowActive (padRow row n) = rowActive row :=
  rowActive_append_replicate row _

theorem rowActive_mkEmptyRow (n : Nat) : rowActive (mkEmptyRow n) = false := by
  have h := rowActive_append_replicate [] n
  simpa [mkEmptyRow] using h

theorem padRow_length (row : List Cell) (n : Nat) :
    (padRow row n).length = max row.length n := by
  simp [padRow]; omega

theorem padRow_getD (row : List Cell) (n c : Nat) :
    (padRow row n).getD c emptyCell = row.getD c emptyCell := by
  unfold padRow
  by_cases hc : c < row.length
  · rw [List.getD_append _ _ _ _ hc]
  · rw [List.getD_append_right _ _ _ _ (Nat.le_of_not_lt hc),
      List.getD_eq_default row _ (Nat.le_of_not_lt hc), getD_replicate_self]

theorem grid_getD_append_empty (data : List (List Cell)) (k m r c : Nat) :
    ((data ++ List.replicate k (mkEmptyRow m)).getD r []).getD c emptyCell
      = (data.getD r []).getD c emptyCell := by
  by_cases hr : r < data.length
  · rw [List.getD_append _ _ _ _ hr]
  · rw [List.getD_append_right _ _ _ _ (Nat.le_of_not_lt hr),
      List.getD_eq_default data _ (Nat.le_of_not_lt hr)]
    by_cases hk : r - data.length < k
    · rw [getD_replicate _ _ _ _ hk]
      simp [mkEmptyRow, getD_replicate_self, List.getD_nil]
    · rw [List.getD_eq_default (List.replicate k (mkEmptyRow m)) _
        (by simpa using Nat.le_of_not_lt hk)]

theorem grid_getD_map_pad (data : List (List Cell)) (n r c : Nat) :
    ((data.map (fun row => padRow row n)).getD r []).getD c emptyCell
      = (data.getD r []).getD c emptyCell := by
  by_cases hr : r < data.length
  · rw [getD_map_in _ _ _ _ [] hr, padRow_getD]
  · have hle : data.length ≤ r := Nat.le_of_not_lt hr
    rw [List.getD_eq_default (data.map fun row => padRow row n) _ (by simpa using hle),
      List.getD_eq_default data _ hle]

theorem grid_rowActive_append_empty (data : List (List Cell)) (k m r : Nat) :
    rowActive ((data ++ List.replicate k (mkEmptyRow m)).getD r [])
      = rowActive (data.getD r []) := by
  by_cases hr : r < data.length
  · rw [List.getD_append _ _ _ _ hr]
  · rw [List.getD_append_right _ _ _ _ (Nat.le_of_not_lt hr),
      List.getD_eq_default data _ (Nat.le_of_not_lt hr)]
    by_cases hk : r - data.length < k
    · rw [getD_replicate _ _ _ _ hk, rowActive_mkEmptyRow]; rfl
    · rw [List.getD_eq_default _ _ (by simpa using Nat.le_of_not_lt hk)]

theorem grid_rowActive_map_pad (data : List (List Cell)) (n r : Nat) :
    rowActive ((data.map (fun row => padRow row n)).getD r [])
      = rowActive (data.getD r []) := by
  by_cases hr : r < data.length
  · rw [getD_map_in _ _ _ _ [] hr, rowActive_padRow]
  · rw [List.getD_eq_default _ _ (by simpa using Nat.le_of_not_lt hr),
      List.getD_eq_default data _ (Nat.le_of_not_lt hr)]

theorem ensure_data_length (s : GridState) (r c : Nat) :
    (s.ensureCapacity r c).1.data.length = max s.data.length (r + 1) := by
  unfold GridState.ensureCapacity
  by_cases hr : s.data.length ≤ r <;> by_cases hc : c < s.colsCount <;>
    simp [hr, hc] <;> omega

theorem ensure_colsCount (s : GridState) (r c : Nat) :
    (s.ensureCapacity r c).1.colsCount = max s.colsCount (c + 1) := by
  unfold GridState.ensureCapacity
  by_cases hr : s.data.length ≤ r <;> by_cases hc : c < s.colsCount <;>
    simp [hr, hc] <;> omega

theorem ensure_snd (s : GridState) (r c : Nat) :
    (s.ensureCapacity r c).2 = decide (s.data.length ≤ r ∨ s.colsCount ≤ c) := by
  unfold GridState.ensureCapacity
  by_cases hr : s.data.length ≤ r <;> by_cases hc : c < s.colsCount <;>
    simp [hr, hc] <;> omega

theorem ensure_cellAt (s : GridState) (r c r' c' : Nat) :
    (s.ensureCapacity r c).1.cellAt r' c' = s.cellAt r' c' := by
  unfold GridState.ensureCapacity GridState.cellAt
  by_cases hr : s.data.length ≤ r <;> by_cases hc : c < s.colsCount <;>
    simp only [hr, hc, if_true, if_false, ite_true, ite_false] <;>
    simp only [grid_getD_append_empty, grid_getD_map_pad]

theorem ensure_rowActive (s : GridState) (r c r' : Nat) :
    rowActive ((s.ensureCapacity r c).1.data.getD r' [])
      = rowActive (s.data.getD r' []) := by
  unfold GridState.ensureCapacity
  by_cases hr : s.data.length ≤ r <;> by_cases hc : c < s.colsCount <;>
    simp only [hr, hc, if_true, if_false, ite_true, ite_false] <;>
    simp only [grid_rowActive_append_empty, grid_rowActive_map_pad]

theorem ensure_rect (s : GridState) (r c : Nat) (h : s.rect) :
    (s.ensureCapacity r c).1.rect := by
  have hlen : ∀ row ∈ s.data ++
      List.replicate (r + 1 - s.data.length) (mkEmptyRow s.colsCount),
      row.length = s.colsCount := by
    intro row hrow
    rcases List.mem_append.mp hrow with hmem | hmem
    · exact h row hmem
    · rw [List.eq_of_mem_replicate hmem]; simp [mkEmptyRow]
  unfold GridState.ensureCapacity GridState.rect
  by_cases hr : s.data.length ≤ r <;> by_cases hc : c < s.colsCount <;>
    simp only [hr, hc, if_true, if_false, ite_true, ite_false] <;>
    intro row hrow
  · exact hlen row hrow
  · rcases List.mem_map.mp hrow with ⟨row0, hmem0, hpad⟩
    show row.length = c + 1
    rw [← hpad, padRow_length, hlen row0 hmem0]
    omega
  · exact h row hrow
  · rcases List.mem_map.mp hrow with ⟨row0, hmem0, hpad⟩
    show row.length = c + 1
    rw [← hpad, padRow_length, h row0 hmem0]
    omega

theorem ensure_id (s : GridState) (r c : Nat)
    (hr : r < s.data.length) (hc : c < s.colsCount) :
    s.ensureCapacity r c = (s, false) := by
  unfold GridState.ensureCapacity
  simp [hc, Nat.not_le.mpr hr]

/-! ## updateCell characterization -/

theorem updateCell_fst (s : GridState) (r c : Nat) (v : String)
    (rid : Option String) (si : Bool) :
    (s.updateCell r c v rid si).1 = updatedState s r c v rid := by
  simp only [GridState.updateCell, updatedState]
  split
  · rfl
  · rw [apply_ite Prod.fst, ite_self]

theorem updateCell_snd_silent (s : GridState) (r c : Nat) (v : String)
    (rid : Option String) :
    (s.updateCell r c v rid true).2 = none := by
  simp only [GridState.updateCell]
  rfl

theorem updateCell_snd_false (s : GridState) (r c : Nat) (v : String)
    (rid : Option String) :
    (s.updateCell r c v rid false).2 =
      some (if (s.ensureCapacity r c).1.isActiveRow r
              ≠ (updatedState s r c v rid).isActiveRow r
            ∨ (s.ensureCapacity r c).2 = true
            then Event.dataChange
            else Event.cellUpdate r c v) := by
  have hlt : r < (s.ensureCapacity r c).1.data.length := by
    rw [ensure_data_length]; omega
  simp only [GridState.updateCell, updatedState, if_pos hlt]
  rw [if_neg (by decide : ¬(false = true))]
  rw [apply_ite Prod.snd, apply_ite some]

theorem set_getD_self {α : Type} (l : List α) (i : Nat) (d : α)
    (h : i < l.length) : l.set i (l.getD i d) = l := by
  apply List.ext_getElem (by simp)
  intro n h1 h2
  by_cases hn : i = n
  · subst hn
    rw [List.getElem_set_self _]
    exact List.getD_eq_getElem l d h
  · rw [List.getElem_set_ne hn _]

theorem updatedState_in_range (s : GridState) (r c : Nat) (v : String)
    (rid : Option String) (hr : r < s.data.length) (hc : c < s.colsCount) :
    updatedState s r c v rid =
      { s with data := s.data.set r ((s.data.getD r []).set c
          ⟨v, (match rid with
              | some id =>
                  if id = "" then ((s.data.getD r []).getD c emptyCell).recordId
                  else some id
              | none => ((s.data.getD r []).getD c emptyCell).recordId)⟩) } := by
  simp only [updatedState, ensure_id s r c hr hc, setCell]

theorem uploadCells_eq (st : GridState) (row : Nat) (cells : List String)
    (j : Nat) (hr : row < st.data.length) :
    uploadCells st row cells j =
      { st with data := (st.data.set row
          (writeCellsRow (st.data.getD row []) st.colsCount cells j)) } := by
  unfold uploadCells writeCellsRow
  dsimp only
  by_cases h : j < cells.length
  · rw [if_pos h, if_pos h]
    by_cases hcol : j - 1 < st.colsCount
    · rw [if_pos hcol, if_pos hcol]
      have hst : (st.updateCell row (j - 1) (cells.getD j "") none true).1 =
          { st with data := st.data.set row ((st.data.getD row []).set (j - 1)
            ⟨cells.getD j "",
              ((st.data.getD row []).getD (j - 1) emptyCell).recordId⟩) } := by
        rw [updateCell_fst, updatedState_in_range st _ _ _ _ hr hcol]
      rw [hst]
      rw [uploadCells_eq _ row cells (j + 1) (by simpa using hr)]
      congr 1
      rw [List.set_set, getD_set_self _ _ _ _ hr]
    · rw [if_neg hcol, if_neg hcol]
      exact uploadCells_eq st row cells (j + 1) hr
  · rw [if_neg h, if_neg h]
    rw [set_getD_self _ _ _ hr]
termination_by cells.length - j

theorem writeCellsRow_length (rl : List Cell) (cc : Nat)
    (cells : List String) (j : Nat) :
    (writeCellsRow rl cc cells j).length = rl.length := by
  unfold writeCellsRow
  dsimp only
  by_cases h : j < cells.length
  · rw [if_pos h]
    by_cases hcol : j - 1 < cc
    · rw [if_pos hcol, writeCellsRow_length]
      exact List.length_set rl _ _
    · rw [if_neg hcol, writeCellsRow_length]
  · rw [if_neg h]
termination_by cells.length - j

theorem writeCellsRow_getD (rl : List Cell) (cc : Nat)
    (cells : List String) (j p : Nat) (hj : 1 ≤ j) (hlen : cc ≤ rl.length) :
    (writeCellsRow rl cc cells j).getD p emptyCell =
      if j ≤ p + 1 ∧ p + 1 < cells.length ∧ p < cc
      then ⟨cells.getD (p + 1) "", (rl.getD p emptyCell).recordId⟩
      else rl.getD p emptyCell := by
  unfold writeCellsRow
  dsimp only
  by_cases h : j < cells.length
  · rw [if_pos h]
    by_cases hcol : j - 1 < cc
    · rw [if_pos hcol,
        writeCellsRow_getD _ _ _ _ _ (by omega) (by rw [List.length_set]; exact hlen)]
      by_cases hp : j + 1 ≤ p + 1 ∧ p + 1 < cells.length ∧ p < cc
      · rw [if_pos hp, if_pos ⟨by omega, hp.2.1, hp.2.2⟩,
          getD_set_ne _ _ _ _ _ (by omega)]
      · rw [if_neg hp]
        by_cases hq : j ≤ p + 1 ∧ p + 1 < cells.length ∧ p < cc
        · have hpj : p = j - 1 := by omega
          subst hpj
          rw [if_pos hq, getD_set_self _ _ _ _ (by omega)]
          have hj1 : j - 1 + 1 = j := by omega
          rw [hj1]
        · have hne : j - 1 ≠ p := by
            intro he
            exact hq ⟨by omega, by omega, by omega⟩
          rw [if_neg hq, getD_set_ne _ _ _ _ _ hne]
    · rw [if_neg hcol,
        writeCellsRow_getD _ _ _ _ _ (by omega) hlen]
      have hiff : (j + 1 ≤ p + 1 ∧ p + 1 < cells.length ∧ p < cc)
          ↔ (j ≤ p + 1 ∧ p + 1 < cells.length ∧ p < cc) := by
        constructor <;> intro hx <;> exact ⟨by omega, hx.2.1, hx.2.2⟩
      exact if_congr hiff rfl rfl
  · rw [if_neg h]
    have hcond : ¬(j ≤ p + 1 ∧ p + 1 < cells.length ∧ p < cc) := by
      intro hx; omega
    rw [if_neg hcond]
termination_by cells.length - j

theorem writeCellsRow_fresh (cc : Nat) (x : String) (values : List String)
    (hv : values.length = cc) :
    writeCellsRow (mkEmptyRow cc) cc (x :: values) 1 =
      values.map (fun v => ⟨v, none⟩) := by
  apply List.ext_getElem
  · rw [writeCellsRow_length]
    simp [mkEmptyRow, hv]
  · intro p h1 h2
    have hp : p < cc := by
      have := writeCellsRow_length (mkEmptyRow cc) cc (x :: values) 1
      rw [this] at h1
      simpa [mkEmptyRow] using h1
    rw [← List.getD_eq_getElem _ emptyCell h1, ← List.getD_eq_getElem _ emptyCell h2]
    rw [writeCellsRow_getD _ _ _ _ _ (Nat.le_refl 1) (by simp [mkEmptyRow])]
    rw [if_pos ⟨by omega, by simp; omega, hp⟩]
    rw [List.getD_cons_succ]
    rw [getD_map_in _ _ _ _ "" (by omega)]
    have hrec : ((mkEmptyRow cc).getD p emptyCell).recordId = none := by
      unfold mkEmptyRow
      rw [getD_replicate_self]
      rfl
    rw [hrec]

theorem uploadRows_eq (jsonData : List (List String)) (i : Nat) (st : GridState)
    (hi : 1 ≤ i) (hlen : st.data.length + 1 = jsonData.length) :
    (uploadRows st jsonData i).data.length = st.data.length ∧
    (uploadRows st jsonData i).colsCount = st.colsCount ∧
    ∀ k, (uploadRows st jsonData i).data.getD k [] =
      if i ≤ k + 1 ∧ k < st.data.length
      then writeCellsRow (st.data.getD k []) st.colsCount
        (jsonData.getD (k + 1) []) 1
      else st.data.getD k [] := by
  unfold uploadRows
  by_cases h : i < jsonData.length
  · rw [if_pos h]
    have hrow : i - 1 < st.data.length := by omega
    rw [uploadCells_eq _ _ _ _ hrow]
    have hIH := uploadRows_eq jsonData (i + 1)
      { st with data := (st.data.set (i - 1)
          (writeCellsRow (st.data.getD (i - 1) []) st.colsCount
            (jsonData.getD i []) 1)) }
      (by omega) (by rw [List.length_set]; exact hlen)
    rcases hIH with ⟨hl, hc, hk⟩
    rw [List.length_set] at hl
    refine ⟨hl, hc, ?_⟩
    intro k
    rw [hk k]
    rw [List.length_set]
    by_cases hk1 : i + 1 ≤ k + 1 ∧ k < st.data.length
    · rw [if_pos hk1, if_pos ⟨by omega, hk1.2⟩,
        getD_set_ne _ _ _ _ _ (by omega)]
    · rw [if_neg hk1]
      by_cases hk2 : i ≤ k + 1 ∧ k < st.data.length
      · have hki : k = i - 1 := by omega
        subst hki
        rw [if_pos hk2, getD_set_self _ _ _ _ hrow]
        have hi1 : i - 1 + 1 = i := by omega
        rw [hi1]
      · have hne : i - 1 ≠ k := by
          intro he
          exact hk2 ⟨by omega, by omega⟩
        rw [if_neg hk2, getD_set_ne _ _ _ _ _ hne]
  · rw [if_neg h]
    refine ⟨rfl, rfl, ?_⟩
    intro k
    have hcond : ¬(i ≤ k + 1 ∧ k < st.data.length) := by
      intro hx; omega
    rw [if_neg hcond]
termination_by jsonData.length - i

/-! ## updateSchema and upload unfolding -/

theorem updateSchema_fst_data (s : GridState) (names : List String)
    (tgt : Option Nat) :
    (s.updateSchema names tgt).1.data =
      List.replicate (match tgt with | some n => n | none => s.data.length)
        (mkEmptyRow names.length) := by
  simp only [GridState.updateSchema]

theorem updateSchema_fst_colsCount (s : GridState) (names : List String)
    (tgt : Option Nat) :
    (s.updateSchema names tgt).1.colsCount = names.length := by
  simp only [GridState.updateSchema]

theorem updateSchema_fst_colNames (s : GridState) (names : List String)
    (tgt : Option Nat) :
    (s.updateSchema names tgt).1.colNames = names := by
  simp only [GridState.updateSchema]

theorem updateSchema_fst_colWidths (s : GridState) (names : List String)
    (tgt : Option Nat) :
    (s.updateSchema names tgt).1.colWidths =
      List.replicate names.length CONFIG_DEFAULT_COL_WIDTH := by
  simp only [GridState.updateSchema]

theorem updateSchema_fst_currentPage (s : GridState) (names : List String)
    (tgt : Option Nat) :
    (s.updateSchema names tgt).1.currentPage = s.currentPage := by
  simp only [GridState.updateSchema]

theorem updateSchema_snd (s : GridState) (names : List String)
    (tgt : Option Nat) :
    (s.updateSchema names tgt).2 = Event.schemaChange := by
  simp only [GridState.updateSchema]

theorem handleFileUploadRows_cons (s : GridState) (hdr : List String)
    (body : List (List String)) :
    handleFileUploadRows s (hdr :: body) =
      ⟨uploadRows (s.updateSchema (hdr.drop 1) (some body.length)).1
        (hdr :: body) 1,
       Except.ok body.length, [Event.schemaChange, Event.dataChange]⟩ := by
  unfold handleFileUploadRows
  rw [if_neg (by simp)]
  simp only [List.getD_cons_zero, List.length_cons, Nat.add_sub_cancel,
    updateSchema_snd]

/-- C9: for an unmodified grid (no search filter, rectangular rows),
exporting to CSV and re-importing that CSV through the file-upload import
reproduces the same cell values at the same `(row, column)` positions,
disregarding the row-number column and the header row: the resulting data
is the original data with every value kept (and record ids reset, which
the upload path never writes back). -/
theorem C9_csv_roundtrip (s : GridState) (hq : s.searchQuery = "")
    (hrect : s.rect) :
    (handleFileUploadRows s (downloadCSVRows s)).state.data =
      s.data.map (fun row => row.map (fun cell => Cell.mk cell.value none)) := by
  have hfd : s.getFilteredData
      = s.data.enum.map (fun p => IndexedRow.mk p.2 p.1) := by
    simp only [GridState.getFilteredData, if_pos hq]
  have hjson : downloadCSVRows s =
      ("Row No" :: (List.range s.colsCount).map s.getColName) ::
        (s.data.enum.map (fun p => IndexedRow.mk p.2 p.1)).map
          (fun item => toString (item.index + 1) ::
            item.row.map (fun cell => cell.value)) := by
    simp only [downloadCSVRows, hfd]
  rw [hjson, handleFileUploadRows_cons]
  dsimp only [List.drop_succ_cons, List.drop_zero]
  set body := (s.data.enum.map (fun p => IndexedRow.mk p.2 p.1)).map
      (fun item => toString (item.index + 1) ::
        item.row.map (fun cell => cell.value)) with hbody
  have hbodylen : body.length = s.data.length := by
    rw [hbody]; simp [List.enum_length]
  set su := (s.updateSchema ((List.range s.colsCount).map s.getColName)
    (some body.length)).1 with hsu
  have hsud : su.data = List.replicate body.length (mkEmptyRow s.colsCount) := by
    rw [hsu, updateSchema_fst_data]
    simp [List.length_range]
  have hsuc : su.colsCount = s.colsCount := by
    rw [hsu, updateSchema_fst_colsCount]
    simp [List.length_range]
  have hsulen : su.data.length = body.length := by
    rw [hsud, List.length_replicate]
  have hupl := uploadRows_eq
    (("Row No" :: (List.range s.colsCount).map s.getColName) :: body) 1 su
    (Nat.le_refl 1) (by rw [hsulen]; simp)
  rcases hupl with ⟨hL, _hC, hK⟩
  apply List.ext_getElem
  · rw [hL, hsulen, hbodylen]
    simp
  · intro k h1 h2
    have hkn : k < s.data.length := by
      rw [hL, hsulen, hbodylen] at h1; exact h1
    rw [← List.getD_eq_getElem _ [] h1, ← List.getD_eq_getElem _ [] h2]
    rw [hK k, if_pos ⟨by omega, by rw [hsulen, hbodylen]; exact hkn⟩]
    rw [hsud, getD_replicate _ _ _ _ (by rw [hbodylen]; exact hkn), hsuc]
    rw [List.getD_cons_succ]
    have hrowlen : (s.data.getD k []).length = s.colsCount := by
      rw [List.getD_eq_getElem _ _ hkn]
      exact hrect _ (List.getElem_mem hkn)
    have hbk : body.getD k [] =
        toString (k + 1) :: (s.data.getD k []).map (fun cell => cell.value) := by
      rw [hbody]
      rw [getD_map_in _ _ _ _ (IndexedRow.mk [] 0)
        (by simpa [List.enum_length] using hkn)]
      rw [getD_map_in _ _ _ _ ((0 : Nat), ([] : List Cell))
        (by simpa [List.enum_length] using hkn)]
      rw [List.getD_eq_getElem _ _ (by simpa [List.enum_length] using hkn)]
      rw [List.getElem_enum]
      rw [List.getD_eq_getElem s.data _ hkn]
    rw [hbk]
    rw [writeCellsRow_fresh _ _ _ (by rw [List.length_map]; exact hrowlen)]
    rw [getD_map_in _ _ _ _ [] hkn]
    rw [List.map_map]
    rfl

theorem setCell_getD_self (data : List (List Cell)) (r c : Nat) (cell : Cell)
    (hr : r < data.length) (hc : c < (data.getD r []).length) :
    ((setCell data r c cell).getD r []).getD c emptyCell = cell := by
  unfold setCell
  rw [getD_set_self _ _ _ _ hr, getD_set_self _ _ _ _ hc]

theorem setCell_getD_other (data : List (List Cell)) (r c : Nat) (cell : Cell)
    (r' c' : Nat) (h : r' ≠ r ∨ c' ≠ c) :
    ((setCell data r c cell).getD r' []).getD c' emptyCell
      = (data.getD r' []).getD c' emptyCell := by
  unfold setCell
  by_cases hrr : r' = r
  · subst hrr
    have hcc : c' ≠ c := by tauto
    by_cases hlen : r' < data.length
    · rw [getD_set_self _ _ _ _ hlen, getD_set_ne _ _ _ _ _ (Ne.symm hcc)]
    · have hle : data.length ≤ r' := Nat.le_of_not_lt hlen
      have h1 : (data.set r' ((data.getD r' []).set c cell)).getD r' [] = [] :=
        List.getD_eq_default _ _ (by simpa using hle)
      have h2 : data.getD r' [] = [] := List.getD_eq_default _ _ hle
      rw [h1, h2]
  · rw [getD_set_ne _ _ _ _ _ (fun he => hrr he.symm)]

theorem getTotalPages_pos (s : GridState) : 1 ≤ s.getTotalPages := by
  simp only [GridState.getTotalPages]
  by_cases h0 : (s.getFilteredData.length + s.pageSize - 1) / s.pageSize = 0
  · rw [if_pos h0]
  · rw [if_neg h0]
    exact Nat.one_le_iff_ne_zero.mpr h0

theorem ensure_currentPage (s : GridState) (r c : Nat) :
    (s.ensureCapacity r c).1.currentPage = s.currentPage := by
  unfold GridState.ensureCapacity
  by_cases hc : c < s.colsCount <;> simp [hc]

/-! ## Claim theorems -/

/-- C1: for every rectangular grid state and any `(r, c, v)`, after
`updateCell(r, c, v)` a read of cell `(r, c)` returns `v`, and neither the
row count nor `colsCount` is smaller after the call than before it: an
out-of-range write grows the grid and capacity never shrinks. -/
theorem C1_updateCell_readback_capacity (s : GridState) (r c : Nat)
    (v : String) (rid : Option String) (si : Bool) (hrect : s.rect) :
    ((s.updateCell r c v rid si).1.cellAt r c).value = v ∧
    s.data.length ≤ (s.updateCell r c v rid si).1.data.length ∧
    s.colsCount ≤ (s.updateCell r c v rid si).1.colsCount := by
  have hs1len : r < (s.ensureCapacity r c).1.data.length := by
    rw [ensure_data_length]; omega
  have hs1rect := ensure_rect s r c hrect
  have hrowlen : ((s.ensureCapacity r c).1.data.getD r []).length
      = (s.ensureCapacity r c).1.colsCount := by
    rw [List.getD_eq_getElem _ _ hs1len]
    exact hs1rect _ (List.getElem_mem hs1len)
  have hc1 : c < ((s.ensureCapacity r c).1.data.getD r []).length := by
    rw [hrowlen, ensure_colsCount]; omega
  refine ⟨?_, ?_, ?_⟩
  · rw [updateCell_fst]
    simp only [updatedState, GridState.cellAt]
    rw [setCell_getD_self _ _ _ _ hs1len hc1]
  · rw [updateCell_fst]
    simp only [updatedState, setCell, List.length_set]
    rw [ensure_data_length]
    omega
  · rw [updateCell_fst]
    simp only [updatedState]
    rw [ensure_colsCount]
    omega

/-- C1 witness: a concrete out-of-range write on the fresh ten-by-ten
grid. -/
theorem C1_witness :
    GridState.init.rect ∧
    (((GridState.init.updateCell 12 11 "v" none false).1.cellAt 12 11).value = "v" ∧
     GridState.init.data.length ≤
       (GridState.init.updateCell 12 11 "v" none false).1.data.length ∧
     GridState.init.colsCount ≤
       (GridState.init.updateCell 12 11 "v" none false).1.colsCount) :=
  ⟨by decide,
   C1_updateCell_readback_capacity GridState.init 12 11 "v" none false (by decide)⟩

/-- C2 counterexample: from the fresh state, `setPageSize(1)` then
`setPage(2)` (a page the pagination buttons can reach, since there are
ten one-row pages) followed by `updateSchema(["A"], 1)` leaves
`currentPage = 2` while `getTotalPages() = 1`: the claimed invariant
`currentPage ∈ [1, getTotalPages()]` fails after `updateSchema`, a
mutation that changes the filter results. -/
theorem C2_counterexample :
    gridOnPage2.currentPage = 2 ∧
    gridOnPage2.currentPage ≤ gridOnPage2.getTotalPages ∧
    gridShrunk.currentPage = 2 ∧
    gridShrunk.getTotalPages = 1 ∧
    ¬ (gridShrunk.currentPage ≤ gridShrunk.getTotalPages) := by decide

/-- C2 amended: the invariant holds after `setSearchQuery`, `setPageSize`
and `clearAll` (each resets `currentPage` to 1, and `getTotalPages` is at
least 1); `updateCell`, `updateSchema` and `addRow` leave `currentPage`
unchanged and may therefore leave it above `getTotalPages()`. -/
theorem C2_amended_page_reset (s : GridState) (q : String) (m : Nat)
    (names : List String) (tgt : Option Nat) (r c : Nat) (v : String)
    (rid : Option String) (si : Bool) :
    ((s.setSearchQuery q).1.currentPage = 1 ∧
      1 ≤ (s.setSearchQuery q).1.getTotalPages) ∧
    ((s.setPageSize m).1.currentPage = 1 ∧
      1 ≤ (s.setPageSize m).1.getTotalPages) ∧
    (s.clearAll.1.currentPage = 1 ∧ 1 ≤ s.clearAll.1.getTotalPages) ∧
    (s.updateCell r c v rid si).1.currentPage = s.currentPage ∧
    (s.updateSchema names tgt).1.currentPage = s.currentPage ∧
    s.addRow.1.currentPage = s.currentPage := by
  refine ⟨⟨rfl, getTotalPages_pos _⟩, ⟨rfl, getTotalPages_pos _⟩,
    ⟨rfl, getTotalPages_pos _⟩, ?_, updateSchema_fst_currentPage s names tgt, rfl⟩
  rw [updateCell_fst]
  simp only [updatedState]
  exact ensure_currentPage s r c

/-- C3: for every grid state with `pageSize >= 1`, `getTotalPages()`
equals `max(1, ceil(filteredRowCount / pageSize))`, where
`filteredRowCount` is the length of `getFilteredData()` and the ceiling
of `n / p` is `(n + p - 1) / p`. -/
theorem C3_getTotalPages_formula (s : GridState) (hp : 1 ≤ s.pageSize) :
    s.getTotalPages =
      max 1 ((s.getFilteredData.length + s.pageSize - 1) / s.pageSize) := by
  simp only [GridState.getTotalPages]
  by_cases h0 : (s.getFilteredData.length + s.pageSize - 1) / s.pageSize = 0
  · rw [if_pos h0, h0]
    omega
  · rw [if_neg h0]
    have h1 : 1 ≤ (s.getFilteredData.length + s.pageSize - 1) / s.pageSize :=
      Nat.one_le_iff_ne_zero.mpr h0
    omega

/-- C3 witness: the fresh state has page size 25 and ten rows, hence one
page. -/
theorem C3_witness :
    1 ≤ GridState.init.pageSize ∧
    GridState.init.getTotalPages =
      max 1 ((GridState.init.getFilteredData.length + GridState.init.pageSize - 1)
        / GridState.init.pageSize) :=
  ⟨by decide, C3_getTotalPages_formula GridState.init (by decide)⟩

/-- C4: `updateSchema(names, n)` leaves exactly `n` rows of exactly
`names.length` cells, every cell empty with no record id, the column-name
list replaced, the width array rebuilt with one default entry per column
name, and `SCHEMA_CHANGE` emitted; when the row-count argument is omitted
(`none`) the previous row count is preserved; no prior cell contents
survive (every cell of the result is the empty cell). -/
theorem C4_updateSchema_rebuild (s : GridState) (names : List String)
    (tgt : Option Nat) :
    (s.updateSchema names tgt).1.data.length =
      (match tgt with | some n => n | none => s.data.length) ∧
    (∀ r, r < (s.updateSchema names tgt).1.data.length →
      ((s.updateSchema names tgt).1.data.getD r []).length = names.length) ∧
    (∀ r c, (s.updateSchema names tgt).1.cellAt r c = emptyCell) ∧
    (s.updateSchema names tgt).1.colNames = names ∧
    (s.updateSchema names tgt).1.colsCount = names.length ∧
    (s.updateSchema names tgt).1.colWidths =
      List.replicate names.length CONFIG_DEFAULT_COL_WIDTH ∧
    (s.updateSchema names tgt).2 = Event.schemaChange := by
  refine ⟨?_, ?_, ?_, updateSchema_fst_colNames s names tgt,
    updateSchema_fst_colsCount s names tgt,
    updateSchema_fst_colWidths s names tgt, updateSchema_snd s names tgt⟩
  · rw [updateSchema_fst_data, List.length_replicate]
  · intro r hr
    rw [updateSchema_fst_data, List.length_replicate] at hr
    rw [updateSchema_fst_data, getD_replicate _ _ _ _ hr]
    simp [mkEmptyRow]
  · intro r c
    unfold GridState.cellAt
    rw [updateSchema_fst_data]
    have h := grid_getD_append_empty []
      (match tgt with | some n => n | none => s.data.length) names.length r c
    simpa using h

/-- C4 witness: rebuilding a grid that had contents, to five rows of
three named columns. -/
theorem C4_witness :
    (gridTwoByTwo.updateSchema ["A", "B", "C"] (some 5)).1.data.length = 5 ∧
    ((gridTwoByTwo.updateSchema ["A", "B", "C"] (some 5)).1.data.getD 3 []).length = 3 ∧
    (gridTwoByTwo.updateSchema ["A", "B", "C"] (some 5)).1.cellAt 1 2 = emptyCell :=
  ⟨(C4_updateSchema_rebuild gridTwoByTwo ["A", "B", "C"] (some 5)).1,
   (C4_updateSchema_rebuild gridTwoByTwo ["A", "B", "C"] (some 5)).2.1 3 (by decide),
   (C4_updateSchema_rebuild gridTwoByTwo ["A", "B", "C"] (some 5)).2.2.1 1 2⟩

/-- C5: a non-silent `updateCell(r, c, v)` emits exactly one notification:
`DATA_CHANGE` when the row's active status (having at least one non-empty
value or a record id) flipped or capacity changed, otherwise `CELL_UPDATE`
carrying `(r, c, v)`; `updateCell(0, 0, "x")` on the all-empty fresh grid
emits `DATA_CHANGE`, not `CELL_UPDATE`; with `silent = true` no
notification is emitted (and the resulting state is the same). -/
theorem C5_updateCell_notification (s : GridState) (r c : Nat) (v : String)
    (rid : Option String) :
    (s.updateCell r c v rid true).2 = none ∧
    (s.updateCell r c v rid true).1 = (s.updateCell r c v rid false).1 ∧
    (s.updateCell r c v rid false).2 =
      some (if rowActive ((s.updateCell r c v rid false).1.data.getD r [])
              ≠ rowActive (s.data.getD r [])
            ∨ s.data.length ≤ r ∨ s.colsCount ≤ c
            then Event.dataChange
            else Event.cellUpdate r c v) ∧
    (GridState.init.updateCell 0 0 "x" none false).2 = some Event.dataChange := by
  refine ⟨updateCell_snd_silent s r c v rid, ?_, ?_, by decide⟩
  · rw [updateCell_fst, updateCell_fst]
  · rw [updateCell_snd_false]
    congr 1
    apply if_congr ?_ rfl rfl
    constructor
    · intro h
      rcases h with hne | hcap
      · left
        rw [updateCell_fst]
        unfold GridState.isActiveRow at hne
        rw [ensure_rowActive] at hne
        exact Ne.symm hne
      · right
        rw [ensure_snd] at hcap
        simpa using hcap
    · intro h
      rcases h with hne | hcap
      · left
        unfold GridState.isActiveRow
        rw [ensure_rowActive]
        rw [updateCell_fst] at hne
        exact Ne.symm hne
      · right
        rw [ensure_snd]
        simpa using hcap

/-- C6 counterexample: the non-tabular input `hello` is not empty or
whitespace-only, yet `handlePaste` rejects it (with the
format-not-supported error, thrown before any state mutation): the
empty-input check is not the only validation performed. -/
theorem C6_counterexample :
    strTrim "hello" ≠ "" ∧
    (handlePaste GridState.init "hello" sampleId).outcome =
      Except.error PasteError.formatNotSupported := by
  constructor
  · decide
  · decide

/-- C6 amended: empty or whitespace-only input fails with the empty-input
error before any state mutation (the returned state is the argument
unchanged); but this is not the only validation: a single line without a
tab is rejected as unsupported format and a first line with no non-blank
headers after its first cell is rejected as missing headers, while a
column-count mismatch between the header and a data line is accepted. -/
theorem C6_empty_input_aborts (s : GridState) (mkId : Nat → String)
    (text : String) (h : strTrim text = "") :
    handlePaste s text mkId =
      ⟨s, Except.error PasteError.emptyClipboard, [], []⟩ ∧
    (handlePaste GridState.init "hello" sampleId).outcome =
      Except.error PasteError.formatNotSupported ∧
    (handlePaste GridState.init "a\nb" sampleId).outcome =
      Except.error PasteError.headersMissing ∧
    (handlePaste GridState.init "x\ty\n1\t2\t3\t4" sampleId).outcome =
      Except.ok () := by
  refine ⟨?_, by decide, by decide, by decide⟩
  unfold handlePaste
  rw [if_pos (Or.inr (by rw [h]; rfl))]

/-- C6 witness: pasting a single blank is rejected as empty input with
the state untouched. -/
theorem C6_witness :
    strTrim " " = "" ∧
    handlePaste GridState.init " " sampleId =
      ⟨GridState.init, Except.error PasteError.emptyClipboard, [], []⟩ :=
  ⟨by decide, (C6_empty_input_aborts GridState.init sampleId " " (by decide)).1⟩

/-- C7 counterexample: pasting `A\tB\tC\n1\t2\t3\n4\t5\t6` into a
3-column grid, where no cell matches a canonical column name
(`CONFIG.COL_NAMES` is empty), still excludes the first line as a header
— 2 data rows result, not 3, so header treatment is not conditional on
name matches exceeding a threshold — and the first cell of each data line
is dropped: the grid ends with 2 columns and cell `(0,0)` holds `2`, not
`1`, so the cells are not assigned sequentially. -/
theorem C7_counterexample :
    (handlePaste gridThreeCols "A\tB\tC\n1\t2\t3\n4\t5\t6" sampleId).state.data.length = 2 ∧
    (handlePaste gridThreeCols "A\tB\tC\n1\t2\t3\n4\t5\t6" sampleId).state.colsCount = 2 ∧
    ((handlePaste gridThreeCols "A\tB\tC\n1\t2\t3\n4\t5\t6" sampleId).state.cellAt 0 0).value = "2" := by
  refine ⟨by decide, by decide, by decide⟩

/-- C7 amended: the paste import performs no canonical-name matching: it
always treats the first line as a header row, takes the column names from
that line minus its first cell, and drops the first cell of every data
line (column 0 is treated as a row-number column).  Pasting
`A\tB\tC\n1\t2\t3\n4\t5\t6` yields headers `B, C`, two data rows with
values `2,3` and `5,6`, one create call per row (payloads keyed by column
index), and the events `SCHEMA_CHANGE` followed by a single final
`DATA_CHANGE`. -/
theorem C7_paste_scenario :
    handlePaste gridThreeCols "A\tB\tC\n1\t2\t3\n4\t5\t6" sampleId =
      ⟨{ colsCount := 2, colNames := ["B", "C"], colWidths := [130, 130],
         currentPage := 1, pageSize := 25, searchQuery := "",
         data := [[⟨"2", some "r0"⟩, ⟨"3", some "r0"⟩],
                  [⟨"5", some "r1"⟩, ⟨"6", some "r1"⟩]] },
       Except.ok (), [Event.schemaChange, Event.dataChange],
       [[(0, "2"), (1, "3")], [(0, "5"), (1, "6")]]⟩ := by decide

/-- C8 counterexample: for a one-column grid holding the single value
`x`, the CSV export is exactly two rows — one header row
`Row No, A` and the data row `1, x` — so there is no second (grouping)
header row. -/
theorem C8_counterexample :
    downloadCSVRows gridOneByOne = [["Row No", "A"], ["1", "x"]] ∧
    (downloadCSVRows gridOneByOne).length = 2 := by
  refine ⟨by decide, by decide⟩

/-- C8 amended: the CSV export produces one header row — a `Row No` cell
followed by the column names — followed by one row per visible (filtered)
record, each data row prefixed with the record's 1-based original row
number. -/
theorem C8_export_layout (s : GridState) (i : Nat)
    (hi : i < s.getFilteredData.length) :
    (downloadCSVRows s).length = 1 + s.getFilteredData.length ∧
    (downloadCSVRows s).getD 0 [] =
      "Row No" :: (List.range s.colsCount).map s.getColName ∧
    (downloadCSVRows s).getD (i + 1) [] =
      toString ((s.getFilteredData.getD i ⟨[], 0⟩).index + 1) ::
        (s.getFilteredData.getD i ⟨[], 0⟩).row.map (fun cell => cell.value) := by
  refine ⟨?_, ?_, ?_⟩
  · simp only [downloadCSVRows, List.length_cons, List.length_map]
    omega
  · simp only [downloadCSVRows, List.getD_cons_zero]
  · simp only [downloadCSVRows, List.getD_cons_succ]
    rw [getD_map_in _ _ _ _ ⟨[], 0⟩ hi]

/-- C8 witness: the layout at the one-by-one example grid. -/
theorem C8_witness :
    0 < gridOneByOne.getFilteredData.length ∧
    ((downloadCSVRows gridOneByOne).length = 1 + gridOneByOne.getFilteredData.length ∧
     (downloadCSVRows gridOneByOne).getD 0 [] =
       "Row No" :: (List.range gridOneByOne.colsCount).map gridOneByOne.getColName ∧
     (downloadCSVRows gridOneByOne).getD (0 + 1) [] =
       toString ((gridOneByOne.getFilteredData.getD 0 ⟨[], 0⟩).index + 1) ::
         (gridOneByOne.getFilteredData.getD 0 ⟨[], 0⟩).row.map (fun cell => cell.value)) :=
  ⟨by decide, C8_export_layout gridOneByOne 0 (by decide)⟩

/-- C9 witness: the round trip at a concrete 2x2 grid with values and
record ids. -/
theorem C9_witness :
    gridTwoByTwo.searchQuery = "" ∧ gridTwoByTwo.rect ∧
    (handleFileUploadRows gridTwoByTwo (downloadCSVRows gridTwoByTwo)).state.data =
      gridTwoByTwo.data.map (fun row => row.map (fun cell => Cell.mk cell.value none)) :=
  ⟨by decide, by decide, C9_csv_roundtrip gridTwoByTwo (by decide) (by decide)⟩

/-- C10 counterexample: on a cell whose record id is `abc`, supplying the
explicit record id `""` (the empty string) to `updateCell` leaves the old
id in place — JavaScript `recordId || previous` treats the falsy empty
string as absent — contradicting the claim that an explicitly supplied
rid is always stored. -/
theorem C10_counterexample :
    ((gridWithRecordId.updateCell 0 0 "v" (some "") false).1.cellAt 0 0).recordId
      = some "abc" ∧ some "abc" ≠ (some "" : Option String) := by
  refine ⟨by decide, by decide⟩

/-- C10 amended: for an in-range cell `(r, c)`, `updateCell(r, c, v, rid)`
stores `v` and keeps the prior record id when `rid` is absent or the
(falsy) empty string, and stores `rid` when a non-empty `rid` is
supplied; every other cell is unchanged. -/
theorem C10_recordId_rules (s : GridState) (r c : Nat) (v : String)
    (rid : Option String) (si : Bool) (hr : r < s.data.length)
    (hc : c < (s.data.getD r []).length) (hcc : c < s.colsCount) :
    (s.updateCell r c v rid si).1.cellAt r c =
      ⟨v, (match rid with
          | some id => if id = "" then (s.cellAt r c).recordId else some id
          | none => (s.cellAt r c).recordId)⟩ ∧
    (∀ r' c', r' ≠ r ∨ c' ≠ c →
      (s.updateCell r c v rid si).1.cellAt r' c' = s.cellAt r' c') := by
  rw [updateCell_fst, updatedState_in_range s r c v rid hr hcc]
  constructor
  · unfold GridState.cellAt
    rw [getD_set_self _ _ _ _ hr, getD_set_self _ _ _ _ hc]
  · intro r' c' hne
    unfold GridState.cellAt
    exact setCell_getD_other s.data r c _ r' c' hne

/-- C10 witness: an in-range write with an explicit non-empty record id
on the one-cell example grid. -/
theorem C10_witness :
    (0 < gridWithRecordId.data.length ∧
     0 < (gridWithRecordId.data.getD 0 []).length ∧
     0 < gridWithRecordId.colsCount) ∧
    ((gridWithRecordId.updateCell 0 0 "v" (some "xyz") false).1.cellAt 0 0 =
      ⟨"v", (match (some "xyz" : Option String) with
          | some id => if id = "" then (gridWithRecordId.cellAt 0 0).recordId
                       else some id
          | none => (gridWithRecordId.cellAt 0 0).recordId)⟩ ∧
     (∀ r' c', r' ≠ 0 ∨ c' ≠ 0 →
       (gridWithRecordId.updateCell 0 0 "v" (some "xyz") false).1.cellAt r' c'
         = gridWithRecordId.cellAt r' c')) :=
  ⟨⟨by decide, by decide, by decide⟩,
   C10_recordId_rules gridWithRecordId 0 0 "v" (some "xyz") false
     (by decide) (by decide) (by decide)⟩
